import Mathlib

/-!
# Verification of the ByteForge voice-assistant conversation core

Shallow embedding, in Lean 4, of the parts of the TypeScript source that the
specification's claims are about:

* `MediaStream` — the per-connection turn guard of
  `src/routes/twilio.ts` (`setupMediaStreamWebSocket`);
* `ReservationModel` — `checkAvailability` / `findAlternativeSlots` of
  `src/models/reservation.ts`;
* `Conversation` — the Redis-backed session store of `src/config/redis.ts`
  and the orchestration functions of `src/services/conversation.ts`.

External services (OpenAI, Deepgram, TTS, PostgreSQL lookups) are modelled as
oracle parameters holding the value (or failure) the awaited call produced;
the wall clock is modelled as a counter that advances at every `new Date()`
read, reflecting that real time strictly increases between successive reads.
-/

/-! ## 1. The media-stream turn guard (`src/routes/twilio.ts`)

`setupMediaStreamWebSocket` keeps, per WebSocket connection, the mutable
variables `callSid : string | null` and `isProcessing : boolean`.  The
Deepgram `onTranscript` callback (final transcripts only) runs
synchronously up to its first `await`:

```
onTranscript: async (text, confidence) => {
  if (!callSid || isProcessing) return;
  isProcessing = true;
  try { const response = await conversationService.processInput(callSid, text); ... }
  catch (error) { ... }
  finally { isProcessing = false; }
}
```

Because Node.js runs one callback at a time, the check `!callSid ||
isProcessing` together with the assignment `isProcessing = true` is atomic;
the turn then completes asynchronously (successfully or not) and the
`finally` block clears the flag.  We therefore model the connection as a
state machine consuming three kinds of events: a final transcript (the
synchronous prefix of `onTranscript`), an interim transcript (`onInterim`,
which only logs), and the completion of the in-flight turn (the `finally`
block, reached on success and on failure alike).

`roundsExecuted` and `droppedFinals` are instrumentation counters: the first
counts entries into the `processInput` round, the second counts final
transcripts discarded by the `return` guard.  The state deliberately has no
queue field: a discarded transcript leaves no trace besides the counter,
exactly as in the source. -/

namespace MediaStream

structure MediaConn where
  callSid : Option String
  isProcessing : Bool
  roundsExecuted : Nat
  droppedFinals : Nat
  deriving DecidableEq

inductive ConnEvent where
  | finalTranscript (text : String)
  | interimTranscript (text : String)
  | turnComplete (failed : Bool)

/-- One event of the media-stream connection, translated from the callbacks
installed in `setupMediaStreamWebSocket` (src/routes/twilio.ts:213-248). -/
def connStep (s : MediaConn) (e : ConnEvent) : MediaConn :=
  match e with
  | .finalTranscript _ =>
      -- `if (!callSid || isProcessing) return;`
      if s.callSid = none ∨ s.isProcessing then
        { s with droppedFinals := s.droppedFinals + 1 }
      else
        -- `isProcessing = true;` followed by the awaited reasoning round
        { s with isProcessing := true, roundsExecuted := s.roundsExecuted + 1 }
  | .interimTranscript _ => s
  | .turnComplete _ =>
      -- the `finally` block: runs whether `processInput` succeeded or threw
      { s with isProcessing := false }

def runConn (s : MediaConn) (es : List ConnEvent) : MediaConn :=
  es.foldl connStep s

end MediaStream

/-! ## 2. The availability check (`src/models/reservation.ts`)

`checkAvailability(date, time, partySize)` consults two external queries —
the `blocked_times` lookup and the ±30-minute reservation count — and, when
the slot is fully booked, calls `findAlternativeSlots`, which probes the
offsets `[1, -1, 2, -2, 3, -3]` (hours) around the preferred time and calls
`checkAvailability` again on each in-hours probe.  The two functions are
mutually recursive with no decreasing argument, so the embedding introduces
explicit fuel: `none` means the computation did not finish within the given
fuel.  The two database queries are oracle functions of the parameters the
SQL receives.

Times are represented as parsed `(hour, minute)` pairs.  The JS code passes
`HH:MM` strings and re-parses them with `split(':').map(Number)`; for the
two-digit, zero-padded strings it builds (`padStart(2, '0')`), formatting
and re-parsing are mutually inverse, so the pair representation is faithful.
The `time` field of a returned slot carries the very string the code builds. -/

namespace ReservationModel

structure AvailEnv where
  /-- `parseInt(process.env.BUSINESS_OPENING_HOUR?.split(':')[0] || '8')` -/
  openingHour : Int
  /-- `parseInt(process.env.BUSINESS_CLOSING_HOUR?.split(':')[0] || '16')` -/
  closingHour : Int
  /-- `parseInt(process.env.MAX_RESERVATIONS_PER_SLOT || '2')` -/
  maxPerSlot : Nat

structure AvailDb where
  /-- Result of the `blocked_times` query for `(date, time)`:
  `some reason` iff a blocking row matched (`reason` may be empty). -/
  blocked : String → Nat × Nat → Option String
  /-- Result of the ±30-minute `COUNT(*)` over non-cancelled reservations
  for `(date, time)`. -/
  countWindow : String → Nat × Nat → Nat

/-- `${newHour.toString().padStart(2, '0')}:${prefMinutes.toString().padStart(2, '0')}` -/
def fmtHM (h m : Nat) : String :=
  (if h < 10 then "0" ++ toString h else toString h) ++ ":" ++
  (if m < 10 then "0" ++ toString m else toString m)

structure Slot where
  date : String
  time : String
  available : Bool
  deriving DecidableEq

structure AvailabilityResult where
  available : Bool
  reason : Option String := none
  currentBookings : Option Nat := none
  maxCapacity : Option Nat := none
  alternativeSlots : Option (List Slot) := none
  deriving DecidableEq

/-- The `for (const offset of offsets)` loop body of `findAlternativeSlots`
(src/models/reservation.ts:86-102), abstracted over the availability check it
calls so that the mutual recursion threads through the fuel.  `none`
propagates fuel exhaustion of a probe. -/
def altLoop (env : AvailEnv)
    (checkFn : String → Nat × Nat → Nat → Option AvailabilityResult)
    (date : String) (prefH prefM : Nat) (count partySize : Nat) :
    List Int → List Slot → Option (List Slot)
  | [], acc => some acc
  | off :: rest, acc =>
      -- `if (alternatives.length >= count) break;`
      if acc.length ≥ count then some acc
      else
        let newHour : Int := (prefH : Int) + off
        -- `if (newHour >= openingHour && newHour <= closingHour)`
        if env.openingHour ≤ newHour ∧ newHour ≤ env.closingHour then
          match checkFn date (newHour.toNat, prefM) partySize with
          | none => none
          | some r =>
              if r.available then
                altLoop env checkFn date prefH prefM count partySize rest
                  (acc ++ [{ date := date, time := fmtHM newHour.toNat prefM,
                             available := true }])
              else
                altLoop env checkFn date prefH prefM count partySize rest acc
        else
          altLoop env checkFn date prefH prefM count partySize rest acc

/-- `checkAvailability` (src/models/reservation.ts:15-69), with fuel.
At fuel `0` the computation is cut off (`none`); each recursive probe made
through `findAlternativeSlots` runs with one unit less fuel. -/
def checkAvailability (env : AvailEnv) (db : AvailDb) :
    Nat → String → Nat × Nat → Nat → Option AvailabilityResult
  | 0, _, _, _ => none
  | Nat.succ fuel, date, time, partySize =>
      match db.blocked date time with
      | some reason =>
          some { available := false,
                 reason := some (if reason = "" then
                   "this date/time is not available" else reason) }
      | none =>
          let currentBookings := db.countWindow date time
          if currentBookings ≥ env.maxPerSlot then
            match altLoop env
                (fun d t ps => checkAvailability env db fuel d t ps)
                date time.1 time.2 3 partySize [1, -1, 2, -2, 3, -3] [] with
            | none => none
            | some alternatives =>
                some { available := false,
                       currentBookings := some currentBookings,
                       maxCapacity := some env.maxPerSlot,
                       reason := some "This time slot is fully booked",
                       alternativeSlots := some alternatives }
          else
            some { available := true,
                   currentBookings := some currentBookings,
                   maxCapacity := some env.maxPerSlot }

/-- `findAlternativeSlots` (src/models/reservation.ts:72-105), with fuel:
each probe's `checkAvailability` call receives the given fuel. -/
def findAlternativeSlots (env : AvailEnv) (db : AvailDb) (fuel : Nat)
    (date : String) (preferredTime : Nat × Nat) (count partySize : Nat) :
    Option (List Slot) :=
  altLoop env (fun d t ps => checkAvailability env db fuel d t ps)
    date preferredTime.1 preferredTime.2 count partySize
    [1, -1, 2, -2, 3, -3] []

/-- A slot is open exactly when it is neither blocked nor at capacity.  This
is the value of the `available` field `checkAvailability` computes whenever
it returns at all; it does not depend on the recursive alternatives search. -/
def slotOpen (env : AvailEnv) (db : AvailDb) (date : String)
    (time : Nat × Nat) : Bool :=
  (db.blocked date time).isNone ∧ db.countWindow date time < env.maxPerSlot

/-- Reference description of the alternative-slot search, written after the
specification's words: probe the offsets `+1h, -1h, +2h, -2h, +3h, -3h` from
the requested time in exactly that order, skip offsets outside business
hours, collect the open slots, and stop once `count` alternatives are
collected.  Unlike the source, it consults the non-recursive `slotOpen`
predicate, so it is total; comparing it with the fueled source embedding is
the content of claim C4. -/
def specAltLoop (env : AvailEnv) (db : AvailDb) (date : String)
    (prefH prefM : Nat) (count : Nat) :
    List Int → List Slot → List Slot
  | [], acc => acc
  | off :: rest, acc =>
      if acc.length ≥ count then acc
      else
        let newHour : Int := (prefH : Int) + off
        if env.openingHour ≤ newHour ∧ newHour ≤ env.closingHour then
          if slotOpen env db date (newHour.toNat, prefM) then
            specAltLoop env db date prefH prefM count rest
              (acc ++ [{ date := date, time := fmtHM newHour.toNat prefM,
                         available := true }])
          else
            specAltLoop env db date prefH prefM count rest acc
        else
          specAltLoop env db date prefH prefM count rest acc

def specAlternatives (env : AvailEnv) (db : AvailDb) (date : String)
    (pref : Nat × Nat) : List Slot :=
  specAltLoop env db date pref.1 pref.2 3 [1, -1, 2, -2, 3, -3] []

end ReservationModel


/-! ### Helper lemmas for the availability theorems -/

namespace ReservationModel

theorem check_available_eq_slotOpen (env : AvailEnv) (db : AvailDb) (fuel : Nat)
    (d : String) (t : Nat × Nat) (ps : Nat) (r : AvailabilityResult)
    (h : checkAvailability env db fuel d t ps = some r) :
    r.available = slotOpen env db d t := by
  cases fuel with
  | zero => simp [checkAvailability] at h
  | succ fuel =>
    simp only [checkAvailability] at h
    cases hb : db.blocked d t with
    | some reason =>
      rw [hb] at h
      injection h with h'
      subst h'
      simp [slotOpen, hb]
    | none =>
      rw [hb] at h
      by_cases hc : db.countWindow d t ≥ env.maxPerSlot
      · rw [if_pos hc] at h
        cases halt : altLoop env (fun d' t' ps' => checkAvailability env db fuel d' t' ps')
            d t.1 t.2 3 ps [1, -1, 2, -2, 3, -3] [] with
        | none => rw [halt] at h; cases h
        | some alts =>
          rw [halt] at h
          injection h with h'
          subst h'
          simp [slotOpen, hb, Nat.not_lt.mpr hc]
      · rw [if_neg hc] at h
        injection h with h'
        subst h'
        simp [slotOpen, hb, Nat.lt_of_not_le hc]

theorem altLoop_eq_spec (env : AvailEnv) (db : AvailDb) (d : String) (ps : Nat)
    (checkFn : String → Nat × Nat → Nat → Option AvailabilityResult)
    (hchk : ∀ t r, checkFn d t ps = some r → r.available = slotOpen env db d t)
    (h m count : Nat) :
    ∀ (offs : List Int) (acc l : List Slot),
      altLoop env checkFn d h m count ps offs acc = some l →
      l = specAltLoop env db d h m count offs acc := by
  intro offs
  induction offs with
  | nil =>
    intro acc l hl
    simp only [altLoop] at hl
    injection hl with hl
    simp [specAltLoop, hl.symm]
  | cons off rest ihoffs =>
    intro acc l hl
    simp only [altLoop] at hl
    simp only [specAltLoop]
    by_cases hlen : acc.length ≥ count
    · rw [if_pos hlen] at hl
      rw [if_pos hlen]
      injection hl with hl
      exact hl.symm
    · rw [if_neg hlen] at hl
      rw [if_neg hlen]
      by_cases hin : env.openingHour ≤ (h : Int) + off ∧ (h : Int) + off ≤ env.closingHour
      · rw [if_pos hin] at hl
        rw [if_pos hin]
        cases hc : checkFn d (((h : Int) + off).toNat, m) ps with
        | none => rw [hc] at hl; cases hl
        | some r =>
          simp only [hc] at hl
          rw [← hchk _ _ hc]
          by_cases hav : r.available = true
          · rw [if_pos hav] at hl
            rw [if_pos hav]
            exact ihoffs _ _ hl
          · rw [if_neg hav] at hl
            rw [if_neg hav]
            exact ihoffs _ _ hl
      · rw [if_neg hin] at hl
        rw [if_neg hin]
        exact ihoffs _ _ hl

theorem specAltLoop_length (env : AvailEnv) (db : AvailDb) (d : String)
    (h m count : Nat) :
    ∀ (offs : List Int) (acc : List Slot), acc.length ≤ count →
      (specAltLoop env db d h m count offs acc).length ≤ count := by
  intro offs
  induction offs with
  | nil => intro acc hacc; simpa [specAltLoop] using hacc
  | cons off rest ihoffs =>
    intro acc hacc
    simp only [specAltLoop]
    by_cases hlen : acc.length ≥ count
    · rw [if_pos hlen]; exact hacc
    · rw [if_neg hlen]
      by_cases hin : env.openingHour ≤ (h : Int) + off ∧ (h : Int) + off ≤ env.closingHour
      · rw [if_pos hin]
        by_cases hop : slotOpen env db d (((h : Int) + off).toNat, m) = true
        · rw [if_pos hop]
          apply ihoffs
          have : acc.length < count := Nat.lt_of_not_le hlen
          simp [Nat.succ_le_of_lt this]
        · rw [if_neg hop]; exact ihoffs _ hacc
      · rw [if_neg hin]; exact ihoffs _ hacc

theorem specAltLoop_mem (env : AvailEnv) (db : AvailDb) (d : String)
    (h m count : Nat) :
    ∀ (offs : List Int) (acc : List Slot) (x : Slot),
      x ∈ specAltLoop env db d h m count offs acc →
      x ∈ acc ∨ ∃ off ∈ offs,
        (env.openingHour ≤ (h : Int) + off ∧ (h : Int) + off ≤ env.closingHour) ∧
        x = { date := d, time := fmtHM ((h : Int) + off).toNat m, available := true } := by
  intro offs
  induction offs with
  | nil => intro acc x hx; left; simpa [specAltLoop] using hx
  | cons off rest ihoffs =>
    intro acc x hx
    simp only [specAltLoop] at hx
    by_cases hlen : acc.length ≥ count
    · rw [if_pos hlen] at hx; exact Or.inl hx
    · rw [if_neg hlen] at hx
      by_cases hin : env.openingHour ≤ (h : Int) + off ∧ (h : Int) + off ≤ env.closingHour
      · rw [if_pos hin] at hx
        by_cases hop : slotOpen env db d (((h : Int) + off).toNat, m) = true
        · rw [if_pos hop] at hx
          rcases ihoffs _ _ hx with hmem | ⟨o, ho, hcond, hval⟩
          · rcases List.mem_append.mp hmem with hmem' | hmem'
            · exact Or.inl hmem'
            · right
              refine ⟨off, List.mem_cons_self _ _, hin, ?_⟩
              simpa using hmem'
          · exact Or.inr ⟨o, List.mem_cons_of_mem _ ho, hcond, hval⟩
        · rw [if_neg hop] at hx
          rcases ihoffs _ _ hx with hmem | ⟨o, ho, hcond, hval⟩
          · exact Or.inl hmem
          · exact Or.inr ⟨o, List.mem_cons_of_mem _ ho, hcond, hval⟩
      · rw [if_neg hin] at hx
        rcases ihoffs _ _ hx with hmem | ⟨o, ho, hcond, hval⟩
        · exact Or.inl hmem
        · exact Or.inr ⟨o, List.mem_cons_of_mem _ ho, hcond, hval⟩

end ReservationModel

/-! ## Theorems about the media-stream turn guard -/

/-- C1: for a connection with a known `callId` and no turn in flight, two
final-transcript events with no intervening turn completion execute exactly one
reasoning round: the first sets the in-flight guard and enters `processInput`
(one round), the second is discarded — the state after it differs from the
state after the first only in the drop counter, so nothing is queued and
nothing blocks — and a `turnComplete` event, failed or not, always clears the
guard. -/
theorem turnGuard_atMostOneActiveTurn (s : MediaStream.MediaConn) (c t1 t2 : String)
    (hc : s.callSid = some c) (hp : s.isProcessing = false) :
    (MediaStream.connStep s (.finalTranscript t1)).roundsExecuted = s.roundsExecuted + 1 ∧
    (MediaStream.connStep s (.finalTranscript t1)).isProcessing = true ∧
    MediaStream.connStep (MediaStream.connStep s (.finalTranscript t1)) (.finalTranscript t2) =
      { MediaStream.connStep s (.finalTranscript t1) with
        droppedFinals := (MediaStream.connStep s (.finalTranscript t1)).droppedFinals + 1 } ∧
    (∀ (s' : MediaStream.MediaConn) (f : Bool),
      (MediaStream.connStep s' (.turnComplete f)).isProcessing = false) := by
  refine ⟨?_, ?_, ?_, ?_⟩ <;> simp [MediaStream.connStep, hc, hp]

/-- Witness for C1 at a concrete connection state. -/
theorem turnGuard_atMostOneActiveTurn_witness :
    (MediaStream.connStep ⟨some "CA1", false, 0, 0⟩
      (.finalTranscript "book a table")).roundsExecuted = 1 ∧
    MediaStream.connStep
        (MediaStream.connStep ⟨some "CA1", false, 0, 0⟩ (.finalTranscript "book a table"))
        (.finalTranscript "for four people") =
      { MediaStream.connStep ⟨some "CA1", false, 0, 0⟩ (.finalTranscript "book a table") with
        droppedFinals := 1 } := by
  have h := turnGuard_atMostOneActiveTurn ⟨some "CA1", false, 0, 0⟩ "CA1"
    "book a table" "for four people" rfl rfl
  exact ⟨h.1, h.2.2.1⟩

/-! ## Theorems about the availability check -/

namespace ReservationModel

/-- The business-hours and capacity configuration with all environment
variables unset: opening hour 8, closing hour 16, two reservations per slot. -/
def defaultEnv : AvailEnv := { openingHour := 8, closingHour := 16, maxPerSlot := 2 }

/-- Booking state with two adjacent fully-booked slots: the ±30-minute count
is 2 (= capacity) at 12:xx and 13:xx on every date, 0 elsewhere; nothing is
blocked. -/
def adjacentFullDb : AvailDb :=
  { blocked := fun _ _ => none,
    countWindow := fun _ t => if t.1 = 12 ∨ t.1 = 13 then 2 else 0 }

/-- Booking state with a single fully-booked slot at 12:xx; all other slots
free, nothing blocked. -/
def singleFullDb : AvailDb :=
  { blocked := fun _ _ => none,
    countWindow := fun _ t => if t.1 = 12 then 2 else 0 }

theorem adjDb_blocked (d : String) (t : Nat × Nat) :
    adjacentFullDb.blocked d t = none := rfl

theorem adjDb_count (d : String) (t : Nat × Nat) :
    adjacentFullDb.countWindow d t = if t.1 = 12 ∨ t.1 = 13 then 2 else 0 := rfl

theorem defEnv_open : defaultEnv.openingHour = 8 := rfl
theorem defEnv_close : defaultEnv.closingHour = 16 := rfl
theorem defEnv_max : defaultEnv.maxPerSlot = 2 := rfl

/-- Mutual-induction kernel for claim C3: with 12:00 and 13:00 both fully
booked, neither `checkAvailability` call completes within any fuel bound —
each burns all its fuel bouncing between the two slots through
`findAlternativeSlots`. -/
theorem checkAvailability_adjacentFull_aux : ∀ fuel : Nat,
    checkAvailability defaultEnv adjacentFullDb fuel "2025-06-01" (12, 0) 2 = none ∧
    checkAvailability defaultEnv adjacentFullDb fuel "2025-06-01" (13, 0) 2 = none := by
  intro fuel
  induction fuel with
  | zero => exact ⟨rfl, rfl⟩
  | succ fuel ih =>
    constructor
    · simp [checkAvailability, altLoop, adjDb_blocked, adjDb_count,
        defEnv_open, defEnv_close, defEnv_max, ih.2]
    · simp [checkAvailability, altLoop, adjDb_blocked, adjDb_count,
        defEnv_open, defEnv_close, defEnv_max, ih.1]
      cases h14 : checkAvailability defaultEnv adjacentFullDb fuel "2025-06-01" (14, 0) 2 <;>
        simp [h14]

end ReservationModel

/-- C3: the claim asserts that every availability check terminates, probing at
most the six fixed offsets and never recursing unboundedly even when
neighbouring slots are also fully booked.  The code refutes this:
`findAlternativeSlots` probes each offset with the full `checkAvailability`,
which on a fully-booked probe calls `findAlternativeSlots` again with no
recursion guard.  With 12:00 and 13:00 both fully booked (a party of 2,
date 2025-06-01, default business hours), the mutual recursion
`check 12:00 → alt 12:00 → check 13:00 → alt 13:00 → check 12:00 → …` never
bottoms out: the fueled embedding returns `none` (did not finish) for every
fuel bound, so the un-fueled source computation does not terminate. -/
theorem checkAvailability_diverges_on_adjacent_full_slots (fuel : Nat) :
    ReservationModel.checkAvailability ReservationModel.defaultEnv
      ReservationModel.adjacentFullDb fuel "2025-06-01" (12, 0) 2 = none :=
  (ReservationModel.checkAvailability_adjacentFull_aux fuel).1

/-- C4: whenever `check_availability` on a fully-booked slot (not blocked, at
capacity) returns at all, the returned result is unavailable with the
fully-booked reason, and its alternative-slot list is exactly the list
described by the spec — probe offsets `+1h, -1h, +2h, -2h, +3h, -3h` from the
requested time in that order, skip offsets outside business hours, keep the
open slots, stop at 3 — hence it has at most 3 entries, each lying at an
in-hours probe offset. -/
theorem checkAvailability_alternatives_conform
    (env : ReservationModel.AvailEnv) (db : ReservationModel.AvailDb)
    (fuel : Nat) (d : String) (t : Nat × Nat) (ps : Nat)
    (r : ReservationModel.AvailabilityResult)
    (hsome : ReservationModel.checkAvailability env db fuel d t ps = some r)
    (hnb : db.blocked d t = none)
    (hfull : env.maxPerSlot ≤ db.countWindow d t) :
    r.available = false ∧
    r.reason = some "This time slot is fully booked" ∧
    ∃ l, r.alternativeSlots = some l ∧
      l = ReservationModel.specAlternatives env db d t ∧
      l.length ≤ 3 ∧
      ∀ x ∈ l, ∃ off ∈ ([1, -1, 2, -2, 3, -3] : List Int),
        (env.openingHour ≤ (t.1 : Int) + off ∧ (t.1 : Int) + off ≤ env.closingHour) ∧
        x = { date := d, time := ReservationModel.fmtHM ((t.1 : Int) + off).toNat t.2,
              available := true } := by
  cases fuel with
  | zero => simp [ReservationModel.checkAvailability] at hsome
  | succ fuel =>
    simp only [ReservationModel.checkAvailability, hnb] at hsome
    rw [if_pos hfull] at hsome
    cases halt : ReservationModel.altLoop env
        (fun d' t' ps' => ReservationModel.checkAvailability env db fuel d' t' ps')
        d t.1 t.2 3 ps [1, -1, 2, -2, 3, -3] [] with
    | none => rw [halt] at hsome; cases hsome
    | some alts =>
      rw [halt] at hsome
      injection hsome with hr
      subst hr
      refine ⟨rfl, rfl, alts, rfl, ?_, ?_, ?_⟩
      · exact ReservationModel.altLoop_eq_spec env db d ps _
          (fun t' r' hc => ReservationModel.check_available_eq_slotOpen env db fuel d t' ps r' hc)
          t.1 t.2 3 _ _ _ halt
      · have hspec := ReservationModel.altLoop_eq_spec env db d ps _
          (fun t' r' hc => ReservationModel.check_available_eq_slotOpen env db fuel d t' ps r' hc)
          t.1 t.2 3 _ _ _ halt
        rw [hspec]
        exact ReservationModel.specAltLoop_length env db d t.1 t.2 3 _ [] (by simp)
      · intro x hx
        have hspec := ReservationModel.altLoop_eq_spec env db d ps _
          (fun t' r' hc => ReservationModel.check_available_eq_slotOpen env db fuel d t' ps r' hc)
          t.1 t.2 3 _ _ _ halt
        rw [hspec] at hx
        rcases ReservationModel.specAltLoop_mem env db d t.1 t.2 3 _ [] x hx with hmem | hoff
        · cases hmem
        · exact hoff

/-- Witness for C4: a fully-booked 12:00 slot whose neighbours are free; the
check terminates within fuel 2 and returns three alternatives. -/
theorem checkAvailability_alternatives_conform_witness :
    ∃ r, ReservationModel.checkAvailability ReservationModel.defaultEnv
        ReservationModel.singleFullDb 2 "2025-06-01" (12, 0) 2 = some r ∧
      r.available = false ∧
      ∃ l, r.alternativeSlots = some l ∧ l.length ≤ 3 := by
  cases h : ReservationModel.checkAvailability ReservationModel.defaultEnv
      ReservationModel.singleFullDb 2 "2025-06-01" (12, 0) 2 with
  | none => exact absurd h (by decide)
  | some r =>
    have hc := checkAvailability_alternatives_conform ReservationModel.defaultEnv
      ReservationModel.singleFullDb 2 "2025-06-01" (12, 0) 2 r h rfl (by decide)
    rcases hc.2.2 with ⟨l, hl1, _, hl3, _⟩
    exact ⟨r, rfl, hc.1, l, hl1, hl3⟩

/-! ## 3. The conversation orchestrator
(`src/config/redis.ts`, `src/services/conversation.ts`)

State is the Redis session store plus the `call_logs` table, both keyed by
`callSid`, together with a clock counter standing in for `new Date()` (each
read returns the counter and advances it; successive wall-clock reads during
one call strictly increase).

The call-log model (`models/callLog.ts`) is staged in the appendix of
`src/src/utils/helpers.ts` (past the document separator); its exports and
signatures match every `callLogModel.…` call site of `conversation.ts`, and
the `call_logs` columns are those of `migrations/001_initial.sql`.  Its
`create` runs `INSERT INTO call_logs (call_sid, customer_id, from_number,
to_number, status) VALUES ($1, $2, $3, $4, in-progress)` with the status
literal unquoted — invalid SQL — so the insert throws on every invocation
and no row is ever created; `completeCall` / `appendToTranscript` /
`markTransferred` are keyed `UPDATE`s that touch nothing when no row
matches.  The transcript column is modelled structurally as the list of
`(role, content)` lines that the code joins with `"\n"` after prefixing
`"[role]: "`; the join is injective on that shape, and an empty list
corresponds exactly to the empty string.

External calls (OpenAI chat and analyses, TTS, customer/reservation/FAQ
queries) are oracle parameters carrying the settled outcome of the awaited
promise: `.error` for a rejection, `.ok v` for a resolution with value `v`. -/

namespace Conversation

inductive Role where
  | system
  | user
  | assistant
  | tool
  deriving DecidableEq

structure Message where
  role : Role
  /-- `none` models the JS value `undefined`: the greeting path can store an
  uninitialized variable as a message's `content`. -/
  content : Option String
  timestamp : Nat
  deriving DecidableEq

structure Customer where
  id : Nat
  phone : String
  full_name : Option String
  total_reservations : Nat
  deriving DecidableEq

structure Reservation where
  id : Nat
  reservation_date : String
  reservation_time : String
  party_size : Nat
  status : String
  confirmation_code : String
  deriving DecidableEq

instance : Inhabited Reservation :=
  ⟨⟨0, "", "", 0, "", ""⟩⟩

structure SessionState where
  currentStep : String
  confirmationPending : Bool
  pendingReservation : Option Nat
  transferRequested : Bool
  endRequested : Bool
  deriving DecidableEq

structure Session where
  callSid : String
  customer : Option Customer
  upcomingReservations : List Reservation
  state : SessionState
  messageHistory : List Message
  collectedData : List (String × String)
  createdAt : Nat
  deriving DecidableEq

/-- One `call_logs` row (migrations/001_initial.sql), restricted to the
columns the conversation service touches. -/
structure CallLogRow where
  customerId : Option Nat
  fromNumber : String
  toNumber : String
  status : String
  durationSeconds : Option Nat
  transcript : Option (List (Role × String))
  summary : Option String
  intent : Option String
  sentiment : Option String
  sentimentScore : Option Rat
  reservationId : Option Nat
  wasTransferred : Bool
  transferReason : Option String
  deriving DecidableEq

structure SysState where
  sessions : String → Option Session
  callLogs : String → Option CallLogRow
  clock : Nat

/-- `new Date()`: read the clock and advance it. -/
def tick (st : SysState) : Nat × SysState :=
  (st.clock, { st with clock := st.clock + 1 })

/-! ### Redis session store (`src/config/redis.ts`) -/

/-- `setSession` (redis.ts:44-48): `SETEX` — create or update unconditionally. -/
def setSession (st : SysState) (callSid : String) (s : Session) : SysState :=
  { st with sessions := fun k => if k = callSid then some s else st.sessions k }

/-- `getSession` (redis.ts:52-66). -/
def getSession (st : SysState) (callSid : String) : Option Session :=
  st.sessions callSid

/-- `deleteSession` (redis.ts:152-156). -/
def deleteSession (st : SysState) (callSid : String) : SysState :=
  { st with sessions := fun k => if k = callSid then none else st.sessions k }

/-- `addMessage` (redis.ts:139-149): re-fetch, push, store; a warning and
no-op when the session does not exist. -/
def addMessage (st : SysState) (callSid : String) (m : Message) : SysState :=
  match getSession st callSid with
  | none => st
  | some s => setSession st callSid { s with messageHistory := s.messageHistory ++ [m] }

/-- `updateSessionState` (redis.ts:91-111): re-fetch and merge the partial
state update (the call site's object spread is the function `f`). -/
def updateSessionState (st : SysState) (callSid : String)
    (f : SessionState → SessionState) : SysState :=
  match getSession st callSid with
  | none => st
  | some s => setSession st callSid { s with state := f s.state }

/-- `updateSession` (redis.ts:69-87): re-fetch and merge a top-level partial
update (the call site's object spread is the function `f`). -/
def updateSession (st : SysState) (callSid : String)
    (f : Session → Session) : SysState :=
  match getSession st callSid with
  | none => st
  | some s => setSession st callSid (f s)

/-! ### Call-log store (`models/callLog.ts`, staged in the appendix of
`src/src/utils/helpers.ts`; columns from `migrations/001_initial.sql`) -/

/-- `callLogModel.create` (models/callLog.ts): `INSERT INTO call_logs
(call_sid, customer_id, from_number, to_number, status) VALUES ($1, $2, $3,
$4, in-progress) RETURNING *`.  The status literal `in-progress` is written
without quotes, which is not valid SQL (`in` is a reserved word and cannot
start a value expression), so PostgreSQL rejects the statement on every
invocation — first start and double start alike, before the UNIQUE
`call_sid` constraint could even be consulted; `db.query` logs and rethrows
the error, and no row is ever inserted. -/
def callLogCreate (st : SysState) (callSid : String) (customerId : Option Nat)
    (fromNumber toNumber : String) : Except String SysState :=
  .error "syntax error at or near in"

structure CompletionData where
  status : String
  durationSeconds : Option Nat := none
  transcript : Option (List (Role × String)) := none
  summary : Option String := none
  intent : Option String := none
  sentiment : Option String := none
  sentimentScore : Option Rat := none
  reservationId : Option Nat := none

/-- `x || null` on a JS number: 0 is falsy. -/
def orNullNat (o : Option Nat) : Option Nat :=
  match o with
  | some n => if n = 0 then none else some n
  | none => none

/-- `x || null` on a JS number that may be fractional: 0 is falsy. -/
def orNullRat (o : Option Rat) : Option Rat :=
  match o with
  | some q => if q = 0 then none else some q
  | none => none

/-- `x || null` on a JS string: the empty string is falsy. -/
def orNullStr (o : Option String) : Option String :=
  match o with
  | some s => if s = "" then none else some s
  | none => none

/-- `x || null` on the structurally modelled transcript: the empty line list
joins to the empty string, which is falsy. -/
def orNullLines (o : Option (List (Role × String))) : Option (List (Role × String)) :=
  match o with
  | some l => if l = [] then none else some l
  | none => none

/-- `callLogModel.completeCall` (models/callLog.ts): the keyed
`UPDATE call_logs SET ended_at, status, duration_seconds, transcript, summary,
intent, sentiment, sentiment_score, reservation_id WHERE call_sid = $1`.
Every listed column is overwritten; each optional datum is passed through
`x || null`, so an absent or JS-falsy value stores NULL.  No matching row,
no change (the UPDATE returns zero rows and the function returns null). -/
def completeCall (st : SysState) (callSid : String) (d : CompletionData) : SysState :=
  match st.callLogs callSid with
  | none => st
  | some row =>
      let upd : CallLogRow :=
        { row with
          status := d.status,
          durationSeconds := orNullNat d.durationSeconds,
          transcript := orNullLines d.transcript,
          summary := orNullStr d.summary,
          intent := orNullStr d.intent,
          sentiment := orNullStr d.sentiment,
          sentimentScore := orNullRat d.sentimentScore,
          reservationId := orNullNat d.reservationId }
      { st with callLogs := fun k => if k = callSid then some upd else st.callLogs k }

/-- `callLogModel.appendToTranscript` (models/callLog.ts): keyed UPDATE
concatenating one `[SPEAKER]: text` line onto `COALESCE(transcript, '')`;
the line is kept structural as a `(speaker, text)` pair. -/
def appendToTranscript (st : SysState) (callSid : String) (speaker : Role)
    (text : String) : SysState :=
  match st.callLogs callSid with
  | none => st
  | some row =>
      let upd : CallLogRow :=
        { row with transcript := some ((row.transcript.getD []) ++ [(speaker, text)]) }
      { st with callLogs := fun k => if k = callSid then some upd else st.callLogs k }

/-- `callLogModel.markTransferred` (models/callLog.ts): keyed UPDATE
setting `was_transferred = true` and `transfer_reason = $2`. -/
def markTransferred (st : SysState) (callSid : String) (reason : String) : SysState :=
  match st.callLogs callSid with
  | none => st
  | some row =>
      let upd : CallLogRow :=
        { row with wasTransferred := true, transferReason := some reason }
      { st with callLogs := fun k => if k = callSid then some upd else st.callLogs k }

end Conversation

/-! ### Helpers (`src/utils/helpers.ts`) and external-call environment -/

namespace Conversation

/-- JS truthiness of an optional string: `undefined`/`null` and `''` are falsy. -/
def truthy (o : Option String) : Bool :=
  o.getD "" ≠ ""

/-- `String(x)` on an optional value: `String(undefined) = "undefined"`. -/
def jsString (o : Option String) : String :=
  o.getD "undefined"

/-- `parseInt(s)`: `none` models `NaN` (no leading digits). -/
def jsParseInt (s : String) : Option Int :=
  let chars := s.trim.toList
  let signed : Bool × List Char :=
    match chars with
    | '-' :: rest => (true, rest)
    | '+' :: rest => (false, rest)
    | rest => (false, rest)
  let digits := signed.2.takeWhile Char.isDigit
  if digits.isEmpty then none
  else
    let n : Nat := digits.foldl (fun acc c => acc * 10 + (c.toNat - 48)) 0
    some (if signed.1 then -(n : Int) else (n : Int))

/-- `/^\d{4}-\d{2}-\d{2}$/.test(date)` (helpers.ts:234). -/
def matchesDateFormat (s : String) : Bool :=
  match s.toList with
  | [a, b, c, d, '-', e, f, '-', g, h] => ([a, b, c, d, e, f, g, h]).all Char.isDigit
  | _ => false

/-- `/^\d{2}:\d{2}$/.test(time)` (helpers.ts:239). -/
def matchesTimeFormat (s : String) : Bool :=
  match s.toList with
  | [a, b, ':', c, d] => ([a, b, c, d]).all Char.isDigit
  | _ => false

/-- `time.split(':').map(Number)` destructured as `[hours, minutes]`. -/
def parseHMParts (t : String) : Nat × Nat :=
  match t.splitOn ":" with
  | [h, m] => (h.toNat?.getD 0, m.toNat?.getD 0)
  | h :: m :: _ => (h.toNat?.getD 0, m.toNat?.getD 0)
  | _ => (0, 0)

/-- `formatTimeForDisplay` (helpers.ts:269-276). -/
def formatTimeForDisplay (time : String) : String :=
  let p := parseHMParts time
  let hours := p.1
  let minutes := p.2
  let period := if hours ≥ 12 then "PM" else "AM"
  let displayHours := if hours % 12 = 0 then 12 else hours % 12
  if minutes = 0 then
    toString displayHours ++ " " ++ period
  else
    toString displayHours ++ ":" ++
      (if minutes < 10 then "0" ++ toString minutes else toString minutes) ++ " " ++ period

/-- Configuration and date-dependent externals consumed by the conversation
service: `process.env` values and the pieces of `helpers.ts` that read the
real clock or the JS `Date` parser. -/
structure Env where
  /-- `process.env.BUSINESS_NAME` -/
  businessName : Option String
  /-- `process.env.BUSINESS_OPENING_HOUR` (`HH:MM` string) -/
  openingHourStr : Option String
  /-- `process.env.BUSINESS_CLOSING_HOUR` (`HH:MM` string) -/
  closingHourStr : Option String
  /-- `parseInt(process.env.MAX_PARTY_SIZE || '20')` -/
  maxPartySize : Int
  /-- `getCurrentDate()` — today's date as `YYYY-MM-DD` -/
  currentDate : String
  /-- `isDateInPast(date)` — compares `new Date(date)` with today -/
  dateInPast : String → Bool
  /-- `isTimeInPast(date, time)` — compares with the current instant -/
  timeInPastToday : String → String → Bool
  /-- `new Date(dateStr).toLocaleDateString('en-US', …)` — locale formatting -/
  formatDateForSpeech : String → String

structure Validation where
  valid : Bool
  error : Option String := none
  deriving DecidableEq

/-- `validatePartySize` (helpers.ts:209-225); `none` is `parseInt`'s `NaN`,
which fails the `Number.isInteger` check. -/
def validatePartySize (env : Env) (size : Option Int) : Validation :=
  match size with
  | none => { valid := false, error := some "party size must be a whole number" }
  | some n =>
      if n < 1 then
        { valid := false, error := some "Party size must be at least 1 " }
      else if n > env.maxPartySize then
        { valid := false, error := some "Party size cannot exceed the maximum" }
      else
        { valid := true }

/-- `validateReservation` (helpers.ts:229-265). -/
def validateReservation (env : Env) (date time : String) : Validation :=
  if ¬ matchesDateFormat date then
    { valid := false, error := some "Invalid date format" }
  else if ¬ matchesTimeFormat time then
    { valid := false, error := some "Invalid time format" }
  else if env.dateInPast date then
    { valid := false, error := some "Cannot make reservations for past dates" }
  else if date = env.currentDate ∧ env.timeInPastToday date time then
    { valid := false, error := some "that time has already passed today" }
  else
    let openingHour := env.openingHourStr.getD "8:00"
    let closingHour := env.closingHourStr.getD "17:00"
    if time < openingHour ∨ closingHour < time then
      { valid := false,
        error := some ("we are only open from " ++ formatTimeForDisplay openingHour ++
          " to " ++ formatTimeForDisplay closingHour) }
    else
      { valid := true }

/-! ### Reasoning-engine analysis calls (`src/services/openai.ts`) -/

/-- `generateCallSummary` (openai.ts:143-166): `.error` is a rejected API
call (caught, falls back); a resolved call yields the optional message
content, with `content || 'unable to generate summary'`. -/
def generateCallSummary (o : Except Unit (Option String)) : String :=
  match o with
  | .error _ => "Unable to generate summary "
  | .ok c =>
      match c with
      | none => "unable to generate summary"
      | some s => if s = "" then "unable to generate summary" else s

/-- `detectIntent` (openai.ts:170-201): rejection falls back to `"unknown"`;
a resolved call yields `content?.toLowerCase().trim() || 'other'`. -/
def detectIntent (o : Except Unit (Option String)) : String :=
  match o with
  | .error _ => "unknown"
  | .ok c =>
      match c with
      | none => "other"
      | some s =>
          let t := s.toLower.trim
          if t = "" then "other" else t

structure SentimentResult where
  sentiment : String
  score : Rat
  deriving DecidableEq

/-- `analyzeSentiment` (openai.ts:203-238): `.error` covers a rejected API
call, a null/empty content, and unparseable JSON — all reach the same catch
and fall back to neutral/0.  `.ok (s, sc)` is the parsed object's optional
`sentiment` string and numeric `score`, defaulted by
`parsed.sentiment || 'neutral'` and `typeof parsed.score === 'number' ? … : 0`. -/
def analyzeSentiment (o : Except Unit (Option String × Option Rat)) : SentimentResult :=
  match o with
  | .error _ => { sentiment := "neutral", score := 0 }
  | .ok p =>
      { sentiment := if p.1.getD "" = "" then "neutral" else p.1.getD "",
        score := p.2.getD 0 }

structure AnalysisOracle where
  summary : Except Unit (Option String)
  intent : Except Unit (Option String)
  sentiment : Except Unit (Option String × Option Rat)

end Conversation

/-! ### Action dispatch (`src/services/conversation.ts:230-530`) -/

namespace Conversation

structure FnArgs where
  date : Option String := none
  time : Option String := none
  party_size : Option String := none
  special_requests : Option String := none
  /-- camel-case key probed by `handleCreateReservation`'s guard
  (`args.specialRequests ? …`); the tool schema only ever sends
  `special_requests`. -/
  specialRequests : Option String := none
  reservation_id : Option String := none
  new_date : Option String := none
  new_time : Option String := none
  new_party_size : Option String := none
  name : Option String := none
  question : Option String := none
  reason : Option String := none
  notes : Option String := none
  deriving DecidableEq

structure FunctionCall where
  name : String
  args : FnArgs
  id : String
  deriving DecidableEq

structure ChatResponse where
  content : Option String
  functionCall : Option FunctionCall
  deriving DecidableEq

inductive FnData where
  | availability (a : ReservationModel.AvailabilityResult)
  | reservationModified (reservationId : Nat) (date time : String) (partySize : Nat)
  | reservationsList (items : List Reservation)
  | nameUpdated (name : String)
  | faqFound (answer : String)
  | faqNotFound (message : String)
  | transferring
  | ending
  deriving DecidableEq

structure FunctionExecutionResult where
  success : Bool
  data : Option FnData := none
  error : Option String := none
  shouldEnd : Bool := false
  shouldTransfer : Bool := false
  transferReason : Option String := none
  deriving DecidableEq

/-- Settled outcomes of the external calls an action handler may make. -/
structure FnOracle where
  /-- `reservationModel.checkAvailability(date, time, partySize)`'s resolved
  value (when it resolves at all — see C3). -/
  availability : ReservationModel.AvailabilityResult
  /-- `reservationModel.modify(...)`: `.error` a rejection (caught),
  `.ok none` no matching row, `.ok (some r)` the updated row. -/
  modified : Except Unit (Option Reservation)
  /-- `reservationModel.findUpcomingByCustomer(customerId)` -/
  upcoming : List Reservation
  /-- `faqModel.findMatch(question)`: the best match's answer, if any. -/
  faqMatch : Option String
  analyses : AnalysisOracle

/-- `handleCheckAvailability` (conversation.ts:275-300). -/
def handleCheckAvailability (env : Env) (o : FnOracle) (args : FnArgs) :
    FunctionExecutionResult :=
  let date := jsString args.date
  let time := jsString args.time
  let partySize := jsParseInt (jsString args.party_size)
  let validation := validateReservation env date time
  if validation.valid = false then
    { success := false, error := validation.error }
  else
    let sizeValidation := validatePartySize env partySize
    if sizeValidation.valid = false then
      { success := false, error := sizeValidation.error }
    else
      { success := true, data := some (.availability o.availability) }

/-- `handleCreateReservation` (conversation.ts:302-348).  After
`reservationModel.create` resolves, the body calls
`customerModel.incrementReservation` — but the customer model exports
`incrementReservationCount`, so the property is `undefined` and the call
throws a TypeError inside the `try`; the `catch` returns the failure result.
`linkReservation` and the success payload are unreachable (the external
reservation row is still inserted; the reservations table is outside this
model's state). -/
def handleCreateReservation (session : Session) : FunctionExecutionResult :=
  match session.customer with
  | none => { success := false, error := some "Customer not found" }
  | some _ => { success := false, error := some "Failed to create reservation" }

/-- `handleModifyReservation` (conversation.ts:350-382). -/
def handleModifyReservation (o : FnOracle) : FunctionExecutionResult :=
  match o.modified with
  | .error _ => { success := false, error := some "Failed to modify reservation" }
  | .ok none => { success := false, error := some "Reservation not found" }
  | .ok (some r) =>
      { success := true,
        data := some (.reservationModified r.id r.reservation_date
          r.reservation_time r.party_size) }

/-- `handleCancleReservation` (conversation.ts:384-406): the body calls
`reservationModel.cancle`, but the reservation model exports `cancel`; the
`undefined` property is called, throws inside the `try`, and the `catch`
returns the failure result unconditionally. -/
def handleCancleReservation : FunctionExecutionResult :=
  { success := false, error := some "Failed to cancle reservation" }

/-- `handleGetReservations` (conversation.ts:408-428).  With no resolved
customer it returns success with an empty list without consulting the store.
With a customer, the result rows are mapped through
`r => ({ …, time: r.reservation.time, … })`; `r.reservation` is `undefined`
on every row, so a non-empty result list throws a TypeError on its first
element, uncaught by any handler up to `processInput`. -/
def handleGetReservations (o : FnOracle) (session : Session) :
    Except String FunctionExecutionResult :=
  match session.customer with
  | none => .ok { success := true, data := some (.reservationsList []) }
  | some _ =>
      match o.upcoming with
      | [] => .ok { success := true, data := some (.reservationsList []) }
      | _ :: _ => .error "TypeError: cannot read properties of undefined"

/-- `handleUpdateName` (conversation.ts:430-452): persist externally, then
mirror into the session — the patch `{ customer: { ...session.customer,
full_name: name } }` is built from the handler's session snapshot and merged
into the latest stored session. -/
def handleUpdateName (st : SysState) (session : Session) (args : FnArgs) :
    FunctionExecutionResult × SysState :=
  match session.customer with
  | none => ({ success := false, error := some "Customer not found" }, st)
  | some c =>
      let nm := jsString args.name
      let st1 := updateSession st session.callSid
        (fun s => { s with customer := some { c with full_name := some nm } })
      ({ success := true, data := some (.nameUpdated nm) }, st1)

/-- `handleFaq` (conversation.ts:454-477): no match is a success with
`found: false`, not an error. -/
def handleFaq (o : FnOracle) : FunctionExecutionResult :=
  match o.faqMatch with
  | none =>
      { success := true,
        data := some (.faqNotFound
          "No specific information found. Please transfer to staff if needed.") }
  | some ans => { success := true, data := some (.faqFound ans) }

/-- `handleTransfer` (conversation.ts:479-494). -/
def handleTransfer (st : SysState) (callSid : String) (args : FnArgs) :
    FunctionExecutionResult × SysState :=
  let reason := jsString args.reason
  let st1 := markTransferred st callSid reason
  ({ success := true, data := some (.transferring), shouldTransfer := true,
     transferReason := some reason }, st1)

/-- `[${m.role}]: ${m.content}` for each history entry, joined with `\n`;
interpolating an `undefined` content prints the string `"undefined"`.  The
join is kept structural as the list of `(role, content)` lines. -/
def flattenHistory (h : List Message) : List (Role × String) :=
  h.map (fun m => (m.role, m.content.getD "undefined"))

/-- `handleEndCall` (conversation.ts:496-530): re-fetch the session, flatten
its history (`?.… || ''`), run the three analysis calls via `Promise.all`
(each tolerates its own failure internally, see their definitions), complete
the call log, delete the session, and signal `shouldEnd`. -/
def handleEndCall (o : AnalysisOracle) (st : SysState) (callSid : String) :
    FunctionExecutionResult × SysState :=
  let transcript :=
    match getSession st callSid with
    | some s => flattenHistory s.messageHistory
    | none => []
  let summary := generateCallSummary o.summary
  let intent := detectIntent o.intent
  let sentiment := analyzeSentiment o.sentiment
  let st1 := completeCall st callSid
    { status := "completed", transcript := some transcript, summary := some summary,
      intent := some intent, sentiment := some sentiment.sentiment,
      sentimentScore := some sentiment.score }
  let st2 := deleteSession st1 callSid
  ({ success := true, data := some (.ending), shouldEnd := true }, st2)

/-- `executeFunctionCall` (conversation.ts:230-272).  Note the dispatch keys
`'cancle_reservation'` and `'get_customer_name'`: the tool vocabulary sent to
the reasoning engine (`src/functions/tools.ts`) declares `cancel_reservation`
and `get_customer_reservations`, neither of which matches a case here. -/
def executeFunctionCall (env : Env) (o : FnOracle) (st : SysState)
    (callSid fname : String) (args : FnArgs) :
    Except String FunctionExecutionResult × SysState :=
  match getSession st callSid with
  | none => (.ok { success := false, error := some "Session not found" }, st)
  | some session =>
      match fname with
      | "check_availability" => (.ok (handleCheckAvailability env o args), st)
      | "create_reservation" => (.ok (handleCreateReservation session), st)
      | "modify_reservation" => (.ok (handleModifyReservation o), st)
      | "cancle_reservation" => (.ok handleCancleReservation, st)
      | "get_customer_name" => (handleGetReservations o session, st)
      | "update_customer_name" =>
          let r := handleUpdateName st session args
          (.ok r.1, r.2)
      | "answer_faq" => (.ok (handleFaq o), st)
      | "transfer_to_human" =>
          let r := handleTransfer st callSid args
          (.ok r.1, r.2)
      | "end_call" =>
          let r := handleEndCall o.analyses st callSid
          (.ok r.1, r.2)
      | _ => (.ok { success := false, error := some ("Unknown function: " ++ fname) }, st)

end Conversation

/-! ### Orchestration (`src/services/conversation.ts:32-226, 536-559`) -/

namespace Conversation

/-- `initializeConversation` (conversation.ts:32-75).  `customer` and
`upcoming` are the resolved values of `customerModel.findOrCreate` and
`reservationModel.findUpcomingByCustomer`; `callLogModel.create` is awaited
before the Redis write and its error propagates uncaught.  Since `create`
throws on every invocation (see `callLogCreate`), initialization always
rethrows the SQL error, and the session construction and `redis.setSession`
below the await are dead code: no session is ever written.  This is the only
session-creating path of the service. -/
def initializeConversation (customer : Customer) (upcoming : List Reservation)
    (st : SysState) (callSid fromNumber toNumber : String) :
    Except String Session × SysState :=
  match callLogCreate st callSid (some customer.id) fromNumber toNumber with
  | .error e => (.error e, st)
  | .ok st1 =>
      let created := tick st1
      let session : Session :=
        { callSid := callSid, customer := some customer,
          upcomingReservations := upcoming,
          state := { currentStep := "greeting", confirmationPending := false,
                     pendingReservation := none, transferRequested := false,
                     endRequested := false },
          messageHistory := [], collectedData := [], createdAt := created.1 }
      (.ok session, setSession created.2 callSid session)

/-- `reservationModel.length > 0` (conversation.ts:93): `reservationModel` is
the imported model module object, which has no `length` property; the JS
expression evaluates `undefined > 0`, which is `false`.  The
returning-customer-with-reservation greeting branch is therefore dead. -/
def reservationModelLengthGtZero : Bool := false

/-- JS truthiness of `customer?.full_name`. -/
def nameTruthy (c : Option Customer) : Bool :=
  truthy (c.bind (fun x => x.full_name))

structure GreetingResponse where
  /-- `none` is an uninitialized `greeting` variable (`undefined`). -/
  text : Option String
  /-- whether the `try { audio = await tts… }` produced a buffer; a thrown
  synthesis error (including `cleanTextForSpeech(undefined)`'s TypeError) is
  caught and leaves it `undefined`. -/
  audioOk : Bool
  deriving DecidableEq

/-- `generateGreeting` (conversation.ts:80-124).  The branch structure is the
source's: the first branch tests `customer?.full_name &&
reservationModel.length > 0` (dead, see `reservationModelLengthGtZero`), the
second `customer?.full_name`, and there is no `else` — an unknown caller
leaves `greeting` unassigned. -/
def generateGreeting (env : Env) (ttsOk : Bool) (st : SysState) (callSid : String) :
    Except String GreetingResponse × SysState :=
  match getSession st callSid with
  | none => (.error ("Session not found: " ++ callSid), st)
  | some session =>
      let businessName := env.businessName.getD "our clinic"
      let customer := session.customer
      let reservations := session.upcomingReservations
      let greeting : Option String :=
        if nameTruthy customer ∧ reservationModelLengthGtZero then
          -- unreachable: `reservations[0]` would be read here
          let nextRes := reservations.headI
          some ("Hello " ++ jsString (customer.bind (fun c => c.full_name)) ++
            "! Thank you for calling " ++ businessName ++
            "\n    I see you have a reservation coming up " ++
            env.formatDateForSpeech nextRes.reservation_date ++ " at\n    " ++
            formatTimeForDisplay nextRes.reservation_time ++
            ".\n    How can i help you today?")
        else if nameTruthy customer then
          some ("Thank you for calling " ++ businessName ++
            "! I\x27m your AI assistant and I can help\n    you make a reservation or answer questions about clinic. How can i help you today?")
        else
          none
      let audioOk := ttsOk ∧ greeting.isSome
      let t := tick st
      let st1 := addMessage t.2 callSid
        { role := .assistant, content := greeting, timestamp := t.1 }
      let st2 := updateSessionState st1 callSid
        (fun s => { s with currentStep := "listening" })
      (.ok { text := greeting, audioOk := audioOk }, st2)

/-- Settled outcomes of the external calls of one `processInput` turn. -/
structure TurnOracle where
  /-- `openaiService.chat(messageHistory, context)` -/
  chat : Except String ChatResponse
  /-- `openaiService.continueAfterFunctionCall(…)` -/
  followUp : Except String String
  /-- whether `ttsService.textToSpeech(responseText)` resolved (a rejection is
  caught and only logged) -/
  ttsOk : Bool
  fn : FnOracle

structure ConversationResponse where
  text : String
  audioOk : Bool
  shouldEnd : Bool
  shouldTransfer : Bool
  transferReason : Option String
  deriving DecidableEq

/-- `processInput` (conversation.ts:127-226): fetch the session (throw
`Session not found` otherwise — the conversation is never implicitly
recreated), append the user message, re-fetch, run one reasoning round,
optionally dispatch one action followed by one reasoning follow-up, then —
only when the response text is non-empty — synthesize audio, append the
assistant message, and append both lines to the call-log transcript. -/
def processInput (env : Env) (o : TurnOracle) (st : SysState)
    (callSid userInput : String) :
    Except String ConversationResponse × SysState :=
  match getSession st callSid with
  | none => (.error ("Session not found: " ++ callSid), st)
  | some _session =>
      let t1 := tick st
      let st1 := addMessage t1.2 callSid
        { role := .user, content := some userInput, timestamp := t1.1 }
      match getSession st1 callSid with
      | none => (.error "Session lost during processing", st1)
      | some _updatedSession =>
          match o.chat with
          | .error e => (.error e, st1)
          | .ok response =>
              let afterFn : Except String (String × Bool × Bool × Option String) × SysState :=
                match response.functionCall with
                | none => (.ok (response.content.getD "", false, false, none), st1)
                | some fc =>
                    match executeFunctionCall env o.fn st1 callSid fc.name fc.args with
                    | (.error e, st') => (.error e, st')
                    | (.ok result, st') =>
                        match o.followUp with
                        | .error e => (.error e, st')
                        | .ok text =>
                            (.ok (text, result.shouldEnd, result.shouldTransfer,
                              result.transferReason), st')
              match afterFn with
              | (.error e, st') => (.error e, st')
              | (.ok out, st') =>
                  let responseText := out.1
                  let shouldEnd := out.2.1
                  let shouldTransfer := out.2.2.1
                  let transferReason := out.2.2.2
                  if responseText = "" then
                    (.ok { text := responseText, audioOk := false,
                           shouldEnd := shouldEnd, shouldTransfer := shouldTransfer,
                           transferReason := transferReason }, st')
                  else
                    let t2 := tick st'
                    let st2 := addMessage t2.2 callSid
                      { role := .assistant, content := some responseText, timestamp := t2.1 }
                    let st3 := appendToTranscript st2 callSid .user userInput
                    let st4 := appendToTranscript st3 callSid .assistant responseText
                    (.ok { text := responseText, audioOk := o.ttsOk,
                           shouldEnd := shouldEnd, shouldTransfer := shouldTransfer,
                           transferReason := transferReason }, st4)

/-- `handleCallEnded` (conversation.ts:536-559), the transport status
callback: if a session still exists, complete the call log with the supplied
status/duration and the flattened history; either way delete the session.
No path throws. -/
def handleCallEnded (st : SysState) (callSid : String) (status : String)
    (duration : Nat) : SysState :=
  let st1 :=
    match getSession st callSid with
    | some s =>
        completeCall st callSid
          { status := status, durationSeconds := some duration,
            transcript := some (flattenHistory s.messageHistory) }
    | none => st
  deleteSession st1 callSid

end Conversation

/-! ### Concrete fixtures shared by witnesses and counterexamples -/

namespace Conversation

def emptyState : SysState :=
  { sessions := fun _ => none, callLogs := fun _ => none, clock := 0 }

def sampleEnv : Env :=
  { businessName := none, openingHourStr := none, closingHourStr := none,
    maxPartySize := 20, currentDate := "2025-05-30",
    dateInPast := fun _ => false, timeInPastToday := fun _ _ => false,
    formatDateForSpeech := fun d => d }

def sampleAnalysesFailing : AnalysisOracle :=
  { summary := .error (), intent := .error (), sentiment := .error () }

def sampleFnOracle : FnOracle :=
  { availability := { available := true }, modified := .error (),
    upcoming := [], faqMatch := none, analyses := sampleAnalysesFailing }

def freshSessionState : SessionState :=
  { currentStep := "greeting", confirmationPending := false,
    pendingReservation := none, transferRequested := false, endRequested := false }

def sampleCustomer : Customer :=
  { id := 1, phone := "+15550001111", full_name := some "Alice Smith",
    total_reservations := 3 }

def sampleSession : Session :=
  { callSid := "CA1", customer := some sampleCustomer, upcomingReservations := [],
    state := freshSessionState, messageHistory := [], collectedData := [],
    createdAt := 0 }

/-- A store with a live session for CA1 seeded directly (the broken
`callLogModel.create` means the real initializer can never produce one) and
the — necessarily — empty `call_logs` table. -/
def sampleLiveState : SysState :=
  { sessions := fun k => if k = "CA1" then some sampleSession else none,
    callLogs := fun _ => none,
    clock := 1 }

end Conversation

/-! ### Theorems about the conversation orchestrator -/

/-- C8: a finalized transcript arriving for a callId whose session cannot be
found fails with the session-missing error and returns the state untouched:
no session is implicitly created or recreated for that callId mid-stream. -/
theorem processInput_sessionMissing (env : Conversation.Env)
    (o : Conversation.TurnOracle) (st : Conversation.SysState)
    (callSid userInput : String)
    (h : Conversation.getSession st callSid = none) :
    Conversation.processInput env o st callSid userInput =
      (.error ("Session not found: " ++ callSid), st) ∧
    (Conversation.processInput env o st callSid userInput).2.sessions callSid = none := by
  constructor
  · unfold Conversation.processInput
    rw [h]
  · unfold Conversation.processInput
    rw [h]
    exact h

/-- Witness for C8 on the empty store. -/
theorem processInput_sessionMissing_witness :
    Conversation.getSession Conversation.emptyState "CA9" = none ∧
    Conversation.processInput Conversation.sampleEnv
      { chat := .error "unused", followUp := .error "unused", ttsOk := false,
        fn := Conversation.sampleFnOracle }
      Conversation.emptyState "CA9" "hello" =
      (.error ("Session not found: " ++ "CA9"), Conversation.emptyState) :=
  ⟨rfl, (processInput_sessionMissing Conversation.sampleEnv _ Conversation.emptyState
    "CA9" "hello" rfl).1⟩

/-- C2: the claim says creating a session for a callId that already has a
live session fails with an AlreadyExists failure rather than silently
overwriting the stored session.  The code diverges: `initializeConversation`
awaits `callLogModel.create` before the Redis write, and `create`'s INSERT
is syntactically invalid SQL (the unquoted status literal `in-progress`),
so every initialization — the very first start for a callId included —
throws the SQL syntax error and returns the store untouched.  The claimed
AlreadyExists failure is never raised, no session is ever created, and the
`redis.setSession` underneath (`SETEX`, no existence check) would overwrite
unconditionally if it were ever reached. -/
theorem initializeConversation_always_throws
    (customer : Conversation.Customer) (upcoming : List Conversation.Reservation)
    (st : Conversation.SysState) (callSid fromNumber toNumber : String) :
    Conversation.initializeConversation customer upcoming st callSid fromNumber toNumber =
      (.error "syntax error at or near in", st) := rfl

/-- C6: the claim says invoking finalization twice for the same callId — an
in-conversation `end_call` (`handleEndCall`) followed by a later transport
call-stop (`handleCallEnded`) — persists exactly one completed-call record,
with a non-throwing no-op second invocation.  The code diverges on the
record: the `call_logs` row is never created (`callLogModel.create` throws
its SQL syntax error at call start, and nothing else inserts), so on every
reachable store — `callLogs callSid = none` — the keyed completion UPDATE
of `handleEndCall` matches no row and zero completed-call records are
persisted, not exactly one.  The idempotence half does hold: the first
invocation deletes the session, the second observes no session, performs no
completion update and only repeats the no-op deletion; both functions are
total in the embedding, mirroring that no path of the second invocation
throws. -/
theorem finalization_persists_no_record
    (o : Conversation.AnalysisOracle) (st : Conversation.SysState)
    (callSid status2 : String) (dur2 : Nat)
    (hrow : st.callLogs callSid = none) :
    (Conversation.handleEndCall o st callSid).2.callLogs callSid = none ∧
    (Conversation.handleEndCall o st callSid).2.sessions callSid = none ∧
    Conversation.handleCallEnded (Conversation.handleEndCall o st callSid).2
        callSid status2 dur2 =
      Conversation.deleteSession (Conversation.handleEndCall o st callSid).2 callSid ∧
    (Conversation.handleCallEnded (Conversation.handleEndCall o st callSid).2
        callSid status2 dur2).callLogs callSid = none := by
  have hcc : ∀ d, Conversation.completeCall st callSid d = st := by
    intro d
    unfold Conversation.completeCall
    rw [hrow]
  have hend : (Conversation.handleEndCall o st callSid).2 =
      Conversation.deleteSession st callSid := by
    simp [Conversation.handleEndCall, hcc]
  have hlog1 : (Conversation.handleEndCall o st callSid).2.callLogs callSid = none := by
    rw [hend]
    exact hrow
  have hsess : (Conversation.handleEndCall o st callSid).2.sessions callSid = none := by
    rw [hend]
    simp [Conversation.deleteSession]
  have hg : Conversation.getSession (Conversation.handleEndCall o st callSid).2 callSid
      = none := hsess
  have h2 : Conversation.handleCallEnded (Conversation.handleEndCall o st callSid).2
      callSid status2 dur2 =
      Conversation.deleteSession (Conversation.handleEndCall o st callSid).2 callSid := by
    unfold Conversation.handleCallEnded
    simp only [hg]
  refine ⟨hlog1, hsess, h2, ?_⟩
  rw [h2]
  exact hlog1

/-- Witness for the C6 theorem: a live session for CA1 over the rowless
call-log table; `end_call` then `onCallStop(CA1, "completed", 142)` leaves
the table without any record for CA1. -/
theorem finalization_persists_no_record_witness :
    Conversation.sampleLiveState.callLogs "CA1" = none ∧
    (Conversation.handleEndCall Conversation.sampleAnalysesFailing
      Conversation.sampleLiveState "CA1").2.callLogs "CA1" = none ∧
    (Conversation.handleCallEnded
        (Conversation.handleEndCall Conversation.sampleAnalysesFailing
          Conversation.sampleLiveState "CA1").2 "CA1" "completed" 142).callLogs "CA1" =
      none :=
  ⟨rfl,
    (finalization_persists_no_record Conversation.sampleAnalysesFailing
      Conversation.sampleLiveState "CA1" "completed" 142 rfl).1,
    (finalization_persists_no_record Conversation.sampleAnalysesFailing
      Conversation.sampleLiveState "CA1" "completed" 142 rfl).2.2.2⟩

/-- C7: the claim says the three finalization analyses (summary, primary
intent, sentiment) are independent calls whose individual failures are
tolerated — placeholder summary text, intent "unknown", neutral sentiment
with score 0 — and that finalization still persists the completed-call
record instead of aborting.  The fallback half is faithful to the code and
holds: each analysis catches its own failure internally and yields its
placeholder, and `handleEndCall` reports success and `shouldEnd` for every
combination of outcomes.  The persistence half diverges: the `call_logs`
row was never created (`callLogModel.create` throws its SQL syntax error at
call start), so the completion UPDATE matches no row and no completed-call
record is persisted. -/
theorem finalization_analyses_fallback_no_record
    (o : Conversation.AnalysisOracle) (st : Conversation.SysState)
    (callSid : String)
    (hrow : st.callLogs callSid = none) :
    (Conversation.handleEndCall o st callSid).1.success = true ∧
    (Conversation.handleEndCall o st callSid).1.shouldEnd = true ∧
    (∀ e, o.summary = .error e →
      Conversation.generateCallSummary o.summary = "Unable to generate summary ") ∧
    (∀ e, o.intent = .error e → Conversation.detectIntent o.intent = "unknown") ∧
    (∀ e, o.sentiment = .error e →
      Conversation.analyzeSentiment o.sentiment = ⟨"neutral", 0⟩) ∧
    (Conversation.handleEndCall o st callSid).2.callLogs callSid = none := by
  have hcc : ∀ d, Conversation.completeCall st callSid d = st := by
    intro d
    unfold Conversation.completeCall
    rw [hrow]
  have hend : (Conversation.handleEndCall o st callSid).2 =
      Conversation.deleteSession st callSid := by
    simp [Conversation.handleEndCall, hcc]
  refine ⟨rfl, rfl, ?_, ?_, ?_, ?_⟩
  · intro e he
    simp [Conversation.generateCallSummary, he]
  · intro e he
    simp [Conversation.detectIntent, he]
  · intro e he
    simp [Conversation.analyzeSentiment, he]
  · rw [hend]
    exact hrow

/-- Witness for the C7 theorem: all three analysis calls fail; finalization
reports success with the placeholders, yet no completed-call record exists
afterwards. -/
theorem finalization_analyses_fallback_no_record_witness :
    Conversation.sampleLiveState.callLogs "CA1" = none ∧
    (Conversation.handleEndCall Conversation.sampleAnalysesFailing
      Conversation.sampleLiveState "CA1").1.success = true ∧
    Conversation.generateCallSummary Conversation.sampleAnalysesFailing.summary =
      "Unable to generate summary " ∧
    Conversation.detectIntent Conversation.sampleAnalysesFailing.intent = "unknown" ∧
    Conversation.analyzeSentiment Conversation.sampleAnalysesFailing.sentiment =
      ⟨"neutral", 0⟩ ∧
    (Conversation.handleEndCall Conversation.sampleAnalysesFailing
      Conversation.sampleLiveState "CA1").2.callLogs "CA1" = none := by
  obtain ⟨h1, _, h3, h4, h5, h6⟩ :=
    finalization_analyses_fallback_no_record Conversation.sampleAnalysesFailing
      Conversation.sampleLiveState "CA1" rfl
  exact ⟨rfl, h1, h3 () rfl, h4 () rfl, h5 () rfl, h6⟩

namespace Conversation

def listStartsWith : List Char → List Char → Bool
  | _, [] => true
  | [], _ :: _ => false
  | c :: cs, d :: ds => c = d && listStartsWith cs ds

def listContainsSub : List Char → List Char → Bool
  | [], needle => needle.isEmpty
  | c :: cs, needle => listStartsWith (c :: cs) needle || listContainsSub cs needle

/-- Whether `needle` occurs as a contiguous substring of `hay`. -/
def strContains (hay needle : String) : Bool :=
  listContainsSub hay.toList needle.toList

def c10Session : Session :=
  { callSid := "CA1", customer := none, upcomingReservations := [],
    state := freshSessionState, messageHistory := [], collectedData := [],
    createdAt := 0 }

def c10State : SysState :=
  { sessions := fun k => if k = "CA1" then some c10Session else none,
    callLogs := fun _ => none, clock := 0 }

def c9Reservation : Reservation :=
  { id := 42,
    reservation_date := "2025-06-01",
    reservation_time := "19:00",
    party_size := 4,
    status := "confirmed",
    confirmation_code := "XK7Q2P" }

def c9KnownSession : Session :=
  { callSid := "CA1", customer := some sampleCustomer,
    upcomingReservations := [c9Reservation],
    state := freshSessionState, messageHistory := [], collectedData := [],
    createdAt := 0 }

def c9UnknownCustomer : Customer :=
  { id := 2, phone := "+15550009999", full_name := none, total_reservations := 0 }

def c9UnknownSession : Session :=
  { callSid := "CA2", customer := some c9UnknownCustomer,
    upcomingReservations := [], state := freshSessionState, messageHistory := [],
    collectedData := [], createdAt := 0 }

def c9State : SysState :=
  { sessions := fun k =>
      if k = "CA1" then some c9KnownSession
      else if k = "CA2" then some c9UnknownSession else none,
    callLogs := fun _ => none, clock := 0 }

/-- The generic second-branch greeting text, with the default business name. -/
def genericClinicGreeting : String :=
  "Thank you for calling our clinic! I\x27m your AI assistant and I can help\n    you make a reservation or answer questions about clinic. How can i help you today?"

end Conversation

/-- C10: the claim says the dispatcher maps the action name
`get_customer_reservations` to the read-only reservations handler.  The code
refutes this: the dispatcher's case label is the typo `get_customer_name`, so
the name declared in the tool vocabulary (`src/functions/tools.ts`) falls
through to the unknown-function branch and yields an error result instead of
invoking the handler.  (The handler itself — reached only via the typo name —
does return success with an empty list when no caller identity is resolved,
the claim's second half.) -/
theorem getCustomerReservations_dispatch_mismatch :
    (Conversation.executeFunctionCall Conversation.sampleEnv Conversation.sampleFnOracle
        Conversation.c10State "CA1" "get_customer_reservations" {}).1 =
      .ok { success := false, data := none,
            error := some "Unknown function: get_customer_reservations",
            shouldEnd := false, shouldTransfer := false, transferReason := none } ∧
    (Conversation.executeFunctionCall Conversation.sampleEnv Conversation.sampleFnOracle
        Conversation.c10State "CA1" "get_customer_name" {}).1 =
      .ok { success := true, data := some (.reservationsList []) } := by
  constructor
  · rfl
  · rfl

/-- C9: the claim says a known caller with an upcoming reservation is greeted
by name with that reservation's date and time, and every caller gets a
defined non-empty greeting.  The code refutes both.  The reservation branch
guard reads `reservationModel.length` — a property the imported module object
does not have, so `undefined > 0` is `false` and the branch is dead: the
caller "Alice Smith" with a confirmed 2025-06-01 19:00 reservation receives
the generic assistant greeting, which contains neither her name nor the
reservation's date or time in any rendering.  And a caller with no resolved
name matches no branch at all (there is no `else`), so the greeting is the
undefined variable and the TTS call rejects. -/
theorem generateGreeting_ignores_reservation_and_unknown_caller :
    (Conversation.generateGreeting Conversation.sampleEnv true Conversation.c9State "CA1").1 =
      .ok { text := some Conversation.genericClinicGreeting, audioOk := true } ∧
    Conversation.strContains Conversation.genericClinicGreeting "Alice" = false ∧
    Conversation.strContains Conversation.genericClinicGreeting "2025-06-01" = false ∧
    Conversation.strContains Conversation.genericClinicGreeting "June" = false ∧
    Conversation.strContains Conversation.genericClinicGreeting "19:00" = false ∧
    Conversation.strContains Conversation.genericClinicGreeting "7 PM" = false ∧
    (Conversation.generateGreeting Conversation.sampleEnv true Conversation.c9State "CA2").1 =
      .ok { text := none, audioOk := false } := by
  refine ⟨rfl, by decide, by decide, by decide, by decide, by decide, rfl⟩

namespace Conversation

def c5Customer : Customer :=
  { id := 3, phone := "+15550003333", full_name := none, total_reservations := 0 }

def c5TextTurn : TurnOracle :=
  { chat := .ok { content := some "Sure, I can help with that.", functionCall := none },
    followUp := .error "unused", ttsOk := true, fn := sampleFnOracle }

/-- A fresh session for CA1 seeded directly into the store: the broken
`callLogModel.create` makes `initializeConversation` throw on every call, so
the turn loop can only be exercised on a store seeded past the initializer. -/
def c5Session : Session :=
  { callSid := "CA1", customer := some c5Customer, upcomingReservations := [],
    state := freshSessionState, messageHistory := [], collectedData := [],
    createdAt := 0 }

def c5SeededState : SysState :=
  { sessions := fun k => if k = "CA1" then some c5Session else none,
    callLogs := fun _ => none, clock := 0 }

def c5St2 : SysState :=
  (processInput sampleEnv c5TextTurn
    ((generateGreeting sampleEnv true c5SeededState "CA1").2)
    "CA1" "I want to book a table").2

end Conversation

/-- C5: the claim says that after N completed turns every call's history
holds exactly N user and N assistant entries, alternating user then
assistant.  The code diverges twice.  First, the claimed read-back is
unreachable on every real call: the only session-creating path awaits
`callLogModel.create`, whose invalid INSERT throws on every invocation, so
no call ever acquires a session or any message history (first conjunct).
Second, the turn loop itself contradicts the counts: run on a session
seeded directly past the broken initializer, the greeting is recorded as a
leading assistant entry, and greeting plus one completed turn reads back
assistant, user, assistant — one user entry but two assistant entries, not
one and one (remaining conjuncts). -/
theorem messageHistory_claim_fails :
    (∀ (customer : Conversation.Customer)
        (upcoming : List Conversation.Reservation)
        (st : Conversation.SysState) (callSid fromNumber toNumber : String),
      Conversation.initializeConversation customer upcoming st callSid
          fromNumber toNumber =
        (.error "syntax error at or near in", st)) ∧
    (Conversation.getSession Conversation.c5St2 "CA1").map
        (fun s => s.messageHistory.map Conversation.Message.role) =
      some [.assistant, .user, .assistant] ∧
    (Conversation.getSession Conversation.c5St2 "CA1").map
        (fun s => ((s.messageHistory.filter (fun m => m.role = Conversation.Role.user)).length,
                   (s.messageHistory.filter (fun m => m.role = Conversation.Role.assistant)).length)) =
      some (1, 2) ∧
    ((1 : Nat), (2 : Nat)) ≠ (1, 1) := by
  refine ⟨fun _ _ _ _ _ _ => rfl, by decide, by decide, by decide⟩

namespace Conversation

theorem setSession_get_same (st : SysState) (c : String) (s : Session) :
    (setSession st c s).sessions c = some s := by
  simp [setSession]

theorem setSession_clock (st : SysState) (c : String) (s : Session) :
    (setSession st c s).clock = st.clock := rfl

theorem tick_sessions (st : SysState) : (tick st).2.sessions = st.sessions := rfl

theorem tick_clock (st : SysState) : (tick st).2.clock = st.clock + 1 := rfl

theorem addMessage_found (st : SysState) (c : String) (s : Session) (m : Message)
    (hs : st.sessions c = some s) :
    addMessage st c m =
      setSession st c { s with messageHistory := s.messageHistory ++ [m] } := by
  unfold addMessage getSession
  rw [hs]

theorem addMessage_missing (st : SysState) (c : String) (m : Message)
    (hs : st.sessions c = none) : addMessage st c m = st := by
  unfold addMessage getSession
  rw [hs]

theorem appendToTranscript_sessions (st : SysState) (c : String) (r : Role) (t : String) :
    (appendToTranscript st c r t).sessions = st.sessions := by
  unfold appendToTranscript
  split <;> rfl

theorem appendToTranscript_clock (st : SysState) (c : String) (r : Role) (t : String) :
    (appendToTranscript st c r t).clock = st.clock := by
  unfold appendToTranscript
  split <;> rfl

theorem markTransferred_sessions (st : SysState) (c : String) (r : String) :
    (markTransferred st c r).sessions = st.sessions := by
  unfold markTransferred
  split <;> rfl

theorem markTransferred_clock (st : SysState) (c : String) (r : String) :
    (markTransferred st c r).clock = st.clock := by
  unfold markTransferred
  split <;> rfl

theorem completeCall_sessions (st : SysState) (c : String) (d : CompletionData) :
    (completeCall st c d).sessions = st.sessions := by
  unfold completeCall
  split <;> rfl

theorem deleteSession_get_same (st : SysState) (c : String) :
    (deleteSession st c).sessions c = none := by
  simp [deleteSession]

/-- Dispatching any action other than `end_call` (and, for the typo name
`get_customer_name`, with no upcoming reservations, which would throw — see
`handleGetReservations`) succeeds without touching the stored session's
message history or the clock. -/
theorem executeFunctionCall_ok_preserves
    (env : Env) (o : FnOracle) (st : SysState) (callSid fname : String)
    (args : FnArgs) (s : Session)
    (hs : st.sessions callSid = some s) (hcs : s.callSid = callSid)
    (hne : fname ≠ "end_call")
    (hget : fname = "get_customer_name" → o.upcoming = []) :
    ∃ result st', executeFunctionCall env o st callSid fname args = (.ok result, st') ∧
      (∃ s', st'.sessions callSid = some s' ∧ s'.callSid = callSid ∧
        s'.messageHistory = s.messageHistory) ∧
      st'.clock = st.clock := by
  unfold executeFunctionCall
  rw [show getSession st callSid = some s from hs]
  by_cases h1 : fname = "check_availability"
  · subst h1
    exact ⟨_, st, rfl, ⟨s, hs, hcs, rfl⟩, rfl⟩
  · by_cases h2 : fname = "create_reservation"
    · subst h2
      exact ⟨_, st, rfl, ⟨s, hs, hcs, rfl⟩, rfl⟩
    · by_cases h3 : fname = "modify_reservation"
      · subst h3
        exact ⟨_, st, rfl, ⟨s, hs, hcs, rfl⟩, rfl⟩
      · by_cases h4 : fname = "cancle_reservation"
        · subst h4
          exact ⟨_, st, rfl, ⟨s, hs, hcs, rfl⟩, rfl⟩
        · by_cases h5 : fname = "get_customer_name"
          · subst h5
            have hup : o.upcoming = [] := hget rfl
            rcases hcust : s.customer with _ | c
            · exact ⟨_, st, by simp only [handleGetReservations, hcust]; rfl,
                ⟨s, hs, hcs, rfl⟩, rfl⟩
            · exact ⟨_, st, by simp only [handleGetReservations, hcust, hup]; rfl,
                ⟨s, hs, hcs, rfl⟩, rfl⟩
          · by_cases h6 : fname = "update_customer_name"
            · subst h6
              rcases hcust : s.customer with _ | c
              · exact ⟨_, st, by simp only [handleUpdateName, hcust]; rfl,
                  ⟨s, hs, hcs, rfl⟩, rfl⟩
              · refine ⟨_, _, by simp only [handleUpdateName, hcust]; rfl, ?_, ?_⟩
                · refine ⟨{ s with customer := some { c with full_name := some (jsString args.name) } }, ?_, hcs, rfl⟩
                  rw [hcs]
                  unfold updateSession
                  rw [show getSession st callSid = some s from hs]
                  simp [setSession, hcs]
                · rw [hcs]
                  unfold updateSession
                  rw [show getSession st callSid = some s from hs]
                  rfl
            · by_cases h7 : fname = "answer_faq"
              · subst h7
                exact ⟨_, st, rfl, ⟨s, hs, hcs, rfl⟩, rfl⟩
              · by_cases h8 : fname = "transfer_to_human"
                · subst h8
                  refine ⟨_, _, rfl, ⟨s, ?_, hcs, rfl⟩, ?_⟩
                  · rw [show (handleTransfer st callSid args).2 = markTransferred st callSid (jsString args.reason) from rfl,
                      markTransferred_sessions]
                    exact hs
                  · exact markTransferred_clock _ _ _
                · simp only [h1, h2, h3, h4, h5, h6, h7, h8, hne]
                  exact ⟨_, st, rfl, ⟨s, hs, hcs, rfl⟩, rfl⟩

end Conversation

namespace Conversation

/-- A turn that completes with a non-empty spoken response and does not end
the call: the chat call resolves; with no action, the reply text is
non-empty; with an action, the action is not `end_call` (and not the
throwing `get_customer_name` path) and the follow-up resolves non-empty. -/
def turnCompletes (o : TurnOracle) : Prop :=
  ∃ resp, o.chat = Except.ok resp ∧
    (match resp.functionCall with
     | none => resp.content.getD "" ≠ ""
     | some fc =>
         fc.name ≠ "end_call" ∧
         (fc.name = "get_customer_name" → o.fn.upcoming = []) ∧
         ∃ t, o.followUp = Except.ok t ∧ t ≠ "")

theorem addMessage_sessions_found (st : SysState) (c : String) (s : Session) (m : Message)
    (hs : st.sessions c = some s) :
    (addMessage st c m).sessions c =
      some { s with messageHistory := s.messageHistory ++ [m] } := by
  rw [addMessage_found st c s m hs]
  exact setSession_get_same _ _ _

theorem addMessage_clock (st : SysState) (c : String) (m : Message) :
    (addMessage st c m).clock = st.clock := by
  unfold addMessage
  split
  · rfl
  · rfl

theorem processInput_completed_turn
    (env : Env) (o : TurnOracle) (st : SysState) (callSid input : String) (s : Session)
    (hs : st.sessions callSid = some s) (hcs : s.callSid = callSid)
    (ht : turnCompletes o) :
    ∃ txt resp st', processInput env o st callSid input = (.ok resp, st') ∧
      resp.text = txt ∧ txt ≠ "" ∧
      ∃ s', st'.sessions callSid = some s' ∧ s'.callSid = callSid ∧
        s'.messageHistory = s.messageHistory ++
          [{ role := .user, content := some input, timestamp := st.clock },
           { role := .assistant, content := some txt, timestamp := st.clock + 1 }] ∧
        st'.clock = st.clock + 2 := by
  obtain ⟨resp, hchat, hrest⟩ := ht
  unfold processInput
  rw [show getSession st callSid = some s from hs]
  simp only [tick]
  rw [addMessage_found _ _ s _ (show (SysState.sessions { st with clock := st.clock + 1 } callSid) = some s from hs)]
  rw [show getSession (setSession { st with clock := st.clock + 1 } callSid { s with messageHistory := s.messageHistory ++ [{ role := Role.user, content := some input, timestamp := st.clock }] }) callSid = some { s with messageHistory := s.messageHistory ++ [{ role := Role.user, content := some input, timestamp := st.clock }] } from setSession_get_same _ _ _]
  rw [hchat]
  cases hfc : resp.functionCall with
  | none =>
    rw [hfc] at hrest
    simp only at hrest
    simp only [hfc]
    rw [if_neg hrest]
    refine ⟨resp.content.getD "", _, _, rfl, rfl, hrest, ?_⟩
    simp only [appendToTranscript_sessions, appendToTranscript_clock]
    refine ⟨_, addMessage_sessions_found _ _ ({ s with messageHistory := s.messageHistory ++ [{ role := Role.user, content := some input, timestamp := st.clock }] }) _ ?_, hcs, ?_, ?_⟩
    · exact setSession_get_same _ _ _
    · simp [setSession]
    · rw [addMessage_clock]
      rfl
  | some fc =>
    rw [hfc] at hrest
    simp only at hrest
    obtain ⟨hne, hget, t, hfu, htne⟩ := hrest
    simp only [hfc]
    obtain ⟨result, st', hexec, ⟨s', hs', hcs', hhist'⟩, hclk⟩ :=
      executeFunctionCall_ok_preserves env o.fn
        (setSession { st with clock := st.clock + 1 } callSid { s with messageHistory := s.messageHistory ++ [{ role := Role.user, content := some input, timestamp := st.clock }] })
        callSid fc.name fc.args
        ({ s with messageHistory := s.messageHistory ++ [{ role := Role.user, content := some input, timestamp := st.clock }] })
        (setSession_get_same _ _ _) hcs hne hget
    simp only [hexec, hfu]
    rw [if_neg htne]
    refine ⟨t, _, _, rfl, rfl, htne, ?_⟩
    simp only [appendToTranscript_sessions, appendToTranscript_clock]
    refine ⟨_, addMessage_sessions_found _ _ s' _ ?_, hcs', ?_, ?_⟩
    · exact hs'
    · simp [hhist', hclk, setSession]
    · rw [addMessage_clock]
      simp [hclk, setSession]

end Conversation

namespace Conversation

/-- Role pattern of `n` completed turns: user, assistant, user, assistant, … -/
def turnsPattern : Nat → List Role
  | 0 => []
  | n + 1 => .user :: .assistant :: turnsPattern n

theorem turnsPattern_snoc (n : Nat) :
    turnsPattern n ++ [Role.user, Role.assistant] = turnsPattern (n + 1) := by
  induction n with
  | zero => rfl
  | succ n ih => simpa [turnsPattern] using ih

theorem turnsPattern_count_user (n : Nat) :
    (turnsPattern n).count Role.user = n := by
  induction n with
  | zero => rfl
  | succ n ih => simp [turnsPattern, List.count_cons, ih]

theorem turnsPattern_count_assistant (n : Nat) :
    (turnsPattern n).count Role.assistant = n := by
  induction n with
  | zero => rfl
  | succ n ih => simp [turnsPattern, List.count_cons, ih]

/-- Invariant carried across turns: the session is live, its history matches
the greeting-then-turns role pattern, timestamps strictly increase and stay
below the store's clock. -/
def histOk (callSid : String) (st : SysState) (n : Nat) : Prop :=
  ∃ s, st.sessions callSid = some s ∧ s.callSid = callSid ∧
    s.messageHistory.map Message.role = Role.assistant :: turnsPattern n ∧
    List.Chain' (· < ·) (s.messageHistory.map Message.timestamp) ∧
    ∀ m ∈ s.messageHistory, m.timestamp < st.clock

theorem histOk_step (env : Env) (o : TurnOracle) (st : SysState)
    (callSid input : String) (n : Nat)
    (h : histOk callSid st n) (ht : turnCompletes o) :
    histOk callSid (processInput env o st callSid input).2 (n + 1) := by
  obtain ⟨s, hs, hcs, hroles, hchain, hbound⟩ := h
  obtain ⟨txt, resp, st', heq, _, _, s', hs', hcs', hhist, hclk⟩ :=
    processInput_completed_turn env o st callSid input s hs hcs ht
  rw [heq]
  refine ⟨s', hs', hcs', ?_, ?_, ?_⟩
  · rw [hhist]
    simp only [List.map_append, hroles]
    simp [turnsPattern_snoc]
  · rw [hhist]
    simp only [List.map_append]
    rw [List.chain'_append]
    refine ⟨hchain, by simp, ?_⟩
    intro x hx y hy
    simp at hy
    subst hy
    obtain ⟨hnil, hxl⟩ := List.mem_getLast?_eq_getLast hx
    have hx' : x ∈ s.messageHistory.map Message.timestamp :=
      hxl ▸ List.getLast_mem hnil
    simp at hx'
    obtain ⟨m, hm, hmx⟩ := hx'
    have hlt := hbound m hm
    omega
  · intro m hm
    rw [hhist] at hm
    simp at hm
    rcases hm with hm | hm | hm
    · exact lt_of_lt_of_le (hbound m hm) (by rw [hclk]; omega)
    · rw [hm, hclk]
      show st.clock < st.clock + 2
      omega
    · rw [hm, hclk]
      show st.clock + 1 < st.clock + 2
      omega

end Conversation

namespace Conversation

/-- Driving a call through a list of finalized transcripts, as the transport
delivers them to `processInput` one at a time. -/
def runTurns (env : Env) (callSid : String) : SysState → List (TurnOracle × String) → SysState
  | st, [] => st
  | st, p :: rest => runTurns env callSid (processInput env p.1 st callSid p.2).2 rest

theorem runTurns_append (env : Env) (callSid : String) :
    ∀ (l1 l2 : List (TurnOracle × String)) (st : SysState),
      runTurns env callSid st (l1 ++ l2) =
        runTurns env callSid (runTurns env callSid st l1) l2 := by
  intro l1
  induction l1 with
  | nil => intro l2 st; rfl
  | cons p rest ih => intro l2 st; simp [runTurns, ih]

theorem runTurns_histOk (env : Env) (callSid : String) :
    ∀ (turns : List (TurnOracle × String)) (st : SysState) (n : Nat),
      histOk callSid st n → (∀ p ∈ turns, turnCompletes p.1) →
      histOk callSid (runTurns env callSid st turns) (n + turns.length) := by
  intro turns
  induction turns with
  | nil => intro st n h _; simpa using h
  | cons p rest ih =>
    intro st n h hall
    have hstep := histOk_step env p.1 st callSid p.2 n h (hall p (by simp))
    have := ih _ (n + 1) hstep (fun q hq => hall q (by simp [hq]))
    simpa [runTurns, Nat.add_assoc, Nat.add_comm 1 rest.length] using this

/-- The greeting appends one assistant entry (whatever its text, possibly the
undefined greeting) and leaves the session live. -/
theorem generateGreeting_appends_assistant
    (env : Env) (tts : Bool) (st : SysState) (callSid : String) (s : Session)
    (hs : st.sessions callSid = some s) (hcs : s.callSid = callSid) :
    ∃ g st', generateGreeting env tts st callSid = (.ok g, st') ∧
      ∃ s', st'.sessions callSid = some s' ∧ s'.callSid = callSid ∧
        s'.messageHistory = s.messageHistory ++
          [{ role := .assistant, content := g.text, timestamp := st.clock }] ∧
        st'.clock = st.clock + 1 := by
  unfold generateGreeting
  rw [show getSession st callSid = some s from hs]
  simp only [tick]
  refine ⟨_, _, rfl, ?_⟩
  unfold updateSessionState
  rw [show getSession (addMessage { st with clock := st.clock + 1 } callSid { role := Role.assistant, content := _, timestamp := st.clock }) callSid = some ({ s with messageHistory := s.messageHistory ++ [{ role := Role.assistant, content := _, timestamp := st.clock }] }) from addMessage_sessions_found _ _ s _ hs]
  refine ⟨_, setSession_get_same _ _ _, hcs, rfl, ?_⟩
  rw [setSession_clock, addMessage_clock]

end Conversation

namespace Conversation

/-- A turn whose reasoning round invokes the `end_call` action (and whose
follow-up call resolves). -/
def turnEndsCall (o : TurnOracle) : Prop :=
  ∃ resp fc t, o.chat = Except.ok resp ∧ resp.functionCall = some fc ∧
    fc.name = "end_call" ∧ o.followUp = Except.ok t

theorem processInput_endCall_deletes
    (env : Env) (o : TurnOracle) (st : SysState) (callSid input : String) (s : Session)
    (hs : st.sessions callSid = some s) (he : turnEndsCall o) :
    ((processInput env o st callSid input).2).sessions callSid = none := by
  obtain ⟨resp, fc, t, hchat, hfc, hname, hfu⟩ := he
  unfold processInput
  rw [show getSession st callSid = some s from hs]
  simp only [tick]
  rw [show getSession (addMessage { st with clock := st.clock + 1 } callSid { role := Role.user, content := some input, timestamp := st.clock }) callSid = some ({ s with messageHistory := s.messageHistory ++ [{ role := Role.user, content := some input, timestamp := st.clock }] }) from addMessage_sessions_found _ _ s _ hs]
  rw [hchat]
  simp only [hfc, hname]
  unfold executeFunctionCall
  rw [show getSession (addMessage { st with clock := st.clock + 1 } callSid { role := Role.user, content := some input, timestamp := st.clock }) callSid = some ({ s with messageHistory := s.messageHistory ++ [{ role := Role.user, content := some input, timestamp := st.clock }] }) from addMessage_sessions_found _ _ s _ hs]
  simp only [hfu]
  by_cases hte : t = ""
  · rw [if_pos hte]
    simp [handleEndCall, deleteSession]
  · rw [if_neg hte]
    simp only [appendToTranscript_sessions]
    rw [addMessage_missing]
    · simp [handleEndCall, deleteSession]
    · simp [handleEndCall, deleteSession]

end Conversation

